import Mathlib

/- Shallow embedding of the news retrieval and sentiment aggregation pipeline
of the stocksenti repository. The two front ends are src/sentiment.py (the
Streamlit dashboard, top level functions below) and src/telegram_bot.py (the
Telegram bot, namespace FinancialSentimentBot below). Confidence scores are
modelled as rationals, sentiment labels as strings, and the external news
provider and the transformers model as explicit function parameters. -/

namespace StockSenti

/-- Python str.upper modelled character-wise over the ASCII label strings that
flow through the pipeline. -/
def pyUpper (s : String) : String := ⟨s.data.map Char.toUpper⟩

/-- Python str.lower modelled character-wise. -/
def pyLower (s : String) : String := ⟨s.data.map Char.toLower⟩

/-- Python substring membership needle in hay over character lists. -/
def charsContains : List Char → List Char → Bool
  | hay, needle =>
    needle.isPrefixOf hay ||
    match hay with
    | [] => false
    | _ :: t => charsContains t needle

/-- One label and score record as returned by the transformers pipeline. -/
structure ScoredLabel where
  label : String
  score : ℚ
  deriving DecidableEq, Repr

/-- A raw model result for one text: either a single top-class record, or a
full per-class score distribution, which is a non-empty list encoded as head
plus tail. -/
inductive RawResult where
  | single (top : ScoredLabel)
  | dist (head : ScoredLabel) (tail : List ScoredLabel)
  deriving DecidableEq, Repr

/-- Python max with a score key over a non-empty list: scans left to right and
replaces the current best only on a strictly larger score, so the first of
tied maxima wins. -/
def pyMax (h : ScoredLabel) (t : List ScoredLabel) : ScoredLabel :=
  t.foldl (fun acc x => if x.score > acc.score then x else acc) h

/-- The label normalization table written identically in sentiment.py lines
250-257 and telegram_bot.py lines 295-302. -/
def label_mapping : String → Option String
  | "LABEL_0" => some "NEGATIVE"
  | "LABEL_1" => some "NEUTRAL"
  | "LABEL_2" => some "POSITIVE"
  | "NEGATIVE" => some "NEGATIVE"
  | "NEUTRAL" => some "NEUTRAL"
  | "POSITIVE" => some "POSITIVE"
  | _ => none

/-- Loop body of analyze_sentiment in sentiment.py lines 241-263: take the
top-scoring entry when the result is a distribution, uppercase the label, and
look it up in the mapping with the raw upper-cased label itself as default. -/
def processOne (result : RawResult) : ScoredLabel :=
  let top := match result with
    | .single r => r
    | .dist h t => pyMax h t
  let label := pyUpper top.label
  { label := (label_mapping label).getD label, score := top.score }

/-- analyze_sentiment of sentiment.py lines 234-265. The call to the loaded
transformers pipeline is the function argument pipe; an empty headline list
returns immediately without touching pipe. -/
def analyze_sentiment (pipe : List String → List RawResult)
    (headlines : List String) : List ScoredLabel :=
  if headlines = [] then [] else (pipe headlines).map processOne

/-- Python str.title for the single-word label strings flowing through the
dashboard (sentiment.py line 329): first character upper-cased, the rest
lower-cased. -/
def pyTitle (s : String) : String :=
  match s.data with
  | [] => ""
  | c :: cs => ⟨Char.toUpper c :: cs.map Char.toLower⟩

/-- The Sentiment column of the dashboard DataFrame, sentiment.py lines
326-337: the title-cased label of every result in input order. -/
def dashboard_labels (sentiment_results : List ScoredLabel) : List String :=
  sentiment_results.map fun r => pyTitle r.label

/-- Occurrence count of one value in a column, as tabulated by pandas
value_counts. -/
def countVal (rows : List String) (v : String) : ℕ :=
  (rows.filter fun w => decide (w = v)).length

/-- The distinct values of a column in order of first appearance: the index
of the pandas value_counts series before sorting. -/
def distinctLabels : List String → List String
  | [] => []
  | v :: vs => v :: (distinctLabels vs).filter fun w => decide (w ≠ v)

/-- First value among the candidates attaining the maximal count: scans left
to right and replaces the current best only on a strictly greater count. -/
def argmaxCount (rows : List String) (v : String) (vs : List String) : String :=
  vs.foldl (fun best w => if countVal rows w > countVal rows best then w else best) v

/-- dominant_sentiment of sentiment.py lines 354-359: value_counts().idxmax()
over the Sentiment column when any row exists, else the literal Neutral.
Pandas sorts value_counts by count descending and idxmax takes the first row,
so the result is a value attaining the maximal count; pandas does not
document the ordering among tied counts, and this embedding fixes it to first
appearance — the C1 theorem states only facts independent of that choice. -/
def dominant_sentiment (rows : List String) : String :=
  match distinctLabels rows with
  | [] => "Neutral"
  | v :: vs => argmaxCount rows v vs

/-- The dashboard overall-sentiment chain of sentiment.py lines 326-359,
from classified results to the displayed dominant sentiment. -/
def dashboard_dominant (sentiment_results : List ScoredLabel) : String :=
  dominant_sentiment (dashboard_labels sentiment_results)

/-- Canonical article record produced by the fetchers. The provider timestamp
is carried through as epoch seconds; ISO rendering is presentation only. -/
structure Article where
  title : String
  description : String
  url : String
  publishedAt : ℤ
  source_name : String
  deriving DecidableEq, Repr

/-- One raw entry of the Finnhub company_news response. -/
structure FinnhubArticle where
  headline : String
  summary : String
  url : String
  datetime : ℤ
  source : String
  deriving DecidableEq, Repr

/-- Response of finnhub company_news: a list of entries, or failure for a
raised exception. -/
inductive NewsOutcome where
  | ok (entries : List FinnhubArticle)
  | failure
  deriving DecidableEq, Repr

/-- One candidate returned by finnhub symbol_lookup. -/
structure SymbolCandidate where
  type : String
  symbol : String
  deriving DecidableEq, Repr

/-- Response of finnhub symbol_lookup: the candidate list, a response without
a usable result key, or a raised exception. -/
inductive LookupOutcome where
  | ok (result : List SymbolCandidate)
  | missing
  | failure
  deriving DecidableEq, Repr

/-- get_company_symbol of sentiment.py lines 137-160. Returns none when the
client is not configured, on a malformed response, on a raised exception, or
when no common stock candidate exists; prefers common stocks whose symbol has
no dot, then any common stock in provider order. -/
def get_company_symbol (finnhub_client : Bool) (lookup : String → LookupOutcome)
    (company_name : String) : Option String :=
  if finnhub_client = false then none
  else
    match lookup company_name with
    | .ok result =>
      let us_stocks := result.filter fun r =>
        decide (r.type = "Common Stock") && !(r.symbol.data.contains '.')
      match us_stocks with
      | r :: _ => some r.symbol
      | [] =>
        match result.filter fun r => decide (r.type = "Common Stock") with
        | r :: _ => some r.symbol
        | [] => none
    | .missing => none
    | .failure => none

/-- fetch_news_finnhub of sentiment.py lines 185-211. The provider response is
a parameter and the date window only shapes the request, so it is omitted.
The source loop truncates the raw response to num_articles first and only
then skips entries whose headline is empty or absent (falsy). -/
def fetch_news_finnhub (finnhub_client : Bool) (news : NewsOutcome)
    (num_articles : ℕ) : List Article :=
  if finnhub_client = false then []
  else
    match news with
    | .failure => []
    | .ok entries =>
      ((entries.take num_articles).filter fun a => decide (a.headline ≠ "")).map
        fun a =>
          { title := a.headline, description := a.summary, url := a.url,
            publishedAt := a.datetime, source_name := a.source }

/-- fetch_news of sentiment.py lines 214-231, with the finnhub and newsapi
branches. When the finnhub branch cannot resolve a symbol it shows a free
text warning and yields the empty list without fetching; no structured
reason code exists in the return value. -/
def fetch_news (finnhub_client newsapi : Bool) (lookup : String → LookupOutcome)
    (finnhub_news : String → NewsOutcome) (newsapi_articles : List Article)
    (company : String) (num_articles : ℕ) (source : String) : List Article :=
  if source = "finnhub" ∧ finnhub_client = true then
    match get_company_symbol finnhub_client lookup company with
    | some company_symbol =>
        fetch_news_finnhub finnhub_client (finnhub_news company_symbol) num_articles
    | none => []
  else if source = "newsapi" ∧ newsapi = true then newsapi_articles
  else []

/-- Overall sentiment record returned by calculate_overall_sentiment in
telegram_bot.py lines 316-352. -/
structure OverallSentiment where
  overall_sentiment : String
  confidence : ℚ
  positive_count : ℕ
  negative_count : ℕ
  neutral_count : ℕ
  total_articles : ℕ
  deriving DecidableEq, Repr

namespace FinancialSentimentBot

/-- Loop body of FinancialSentimentBot.analyze_sentiment in telegram_bot.py
lines 287-308, textually identical to the dashboard loop body. -/
def processOne (result : RawResult) : ScoredLabel :=
  let top := match result with
    | .single r => r
    | .dist h t => pyMax h t
  let label := pyUpper top.label
  { label := (label_mapping label).getD label, score := top.score }

/-- FinancialSentimentBot.analyze_sentiment, telegram_bot.py lines 278-314.
The pipeline handle is none when model initialization failed; empty input or
a missing handle returns the empty list without touching the model. The
try/except around the model call is not modelled since pipe is total. -/
def analyze_sentiment (sentiment_pipeline : Option (List String → List RawResult))
    (texts : List String) : List ScoredLabel :=
  match sentiment_pipeline with
  | none => []
  | some pipe => if texts = [] then [] else (pipe texts).map processOne

/-- calculate_overall_sentiment of telegram_bot.py lines 316-352. The
dominant label compares only the POSITIVE and NEGATIVE counts; the average
confidence is the mean over every result regardless of label. -/
def calculate_overall_sentiment (sentiment_results : List ScoredLabel) :
    OverallSentiment :=
  if sentiment_results = [] then
    { overall_sentiment := "NEUTRAL", confidence := 0, positive_count := 0,
      negative_count := 0, neutral_count := 0, total_articles := 0 }
  else
    let positive_count :=
      (sentiment_results.filter fun r => decide (r.label = "POSITIVE")).length
    let negative_count :=
      (sentiment_results.filter fun r => decide (r.label = "NEGATIVE")).length
    let neutral_count :=
      (sentiment_results.filter fun r => decide (r.label = "NEUTRAL")).length
    let total_articles := sentiment_results.length
    let overall_sentiment :=
      if positive_count > negative_count then "POSITIVE"
      else if negative_count > positive_count then "NEGATIVE"
      else "NEUTRAL"
    let avg_confidence :=
      (sentiment_results.map fun r => r.score).sum / (total_articles : ℚ)
    { overall_sentiment := overall_sentiment, confidence := avg_confidence,
      positive_count := positive_count, negative_count := negative_count,
      neutral_count := neutral_count, total_articles := total_articles }

/-- FinancialSentimentBot.get_company_symbol, telegram_bot.py lines 188-210.
Unlike the dashboard version, every failure path returns the company name
itself in place of a ticker. -/
def get_company_symbol (finnhub_client : Bool) (lookup : String → LookupOutcome)
    (company_name : String) : String :=
  if finnhub_client = false then company_name
  else
    match lookup company_name with
    | .ok result =>
      let us_stocks := result.filter fun r =>
        decide (r.type = "Common Stock") && !(r.symbol.data.contains '.')
      match us_stocks with
      | r :: _ => r.symbol
      | [] =>
        match result.filter fun r => decide (r.type = "Common Stock") with
        | r :: _ => r.symbol
        | [] => company_name
    | .missing => company_name
    | .failure => company_name

/-- FinancialSentimentBot.fetch_news_finnhub, telegram_bot.py lines 212-240;
same truncate-then-filter loop as the dashboard with the limit hardcoded to
20 entries. -/
def fetch_news_finnhub (finnhub_client : Bool) (news : NewsOutcome) :
    List Article :=
  if finnhub_client = false then []
  else
    match news with
    | .failure => []
    | .ok entries =>
      ((entries.take 20).filter fun a => decide (a.headline ≠ "")).map
        fun a =>
          { title := a.headline, description := a.summary, url := a.url,
            publishedAt := a.datetime, source_name := a.source }

/-- The curated Indian company keyword list of telegram_bot.py line 377. -/
def indian_companies : List String :=
  ["reliance", "tcs", "infosys", "hdfc", "wipro", "icici", "bharti", "airtel",
   "sbi", "maruti"]

/-- Provider routing of analyze_command, telegram_bot.py lines 377-405: route
to NewsAPI when the lowered company name contains an Indian keyword;
otherwise resolve a symbol with get_company_symbol and fetch from Finnhub
with whatever string that call returned. -/
def route_and_fetch (finnhub_client : Bool) (lookup : String → LookupOutcome)
    (finnhub_news : String → NewsOutcome) (newsapi_fetch : String → List Article)
    (company_name : String) : List Article :=
  if indian_companies.any (fun w => charsContains (pyLower company_name).data w.data) then
    newsapi_fetch company_name
  else
    let company_symbol := get_company_symbol finnhub_client lookup company_name
    fetch_news_finnhub finnhub_client (finnhub_news company_symbol)

/-- One row of the insight DataFrame built in telegram_bot.py lines 464-471. -/
structure Row where
  headline : String
  sentiment : String
  confidence : ℚ
  deriving DecidableEq, Repr

/-- DataFrame construction of telegram_bot.py lines 464-471: rows are built
index for index over the common length of articles and sentiment results, so
row order is the original fetch order. -/
def build_df (articles : List Article) (sentiment_results : List ScoredLabel) :
    List Row :=
  List.zipWith
    (fun a r => { headline := a.title, sentiment := r.label, confidence := r.score })
    articles sentiment_results

/-- Pandas nlargest over one column with the default keep equal to first: the
row with the largest confidence, preferring the earliest row among ties. -/
def nlargest1 : List Row → Option Row
  | [] => none
  | x :: xs =>
    match nlargest1 xs with
    | none => some x
    | some y => if y.confidence > x.confidence then some y else some x

/-- most_positive selection of telegram_bot.py lines 473-475: the nlargest
row over the POSITIVE rows, present only when that subframe is non-empty. -/
def most_positive (df : List Row) : Option Row :=
  nlargest1 (df.filter fun r => decide (r.sentiment = "POSITIVE"))

/-- most_negative selection of telegram_bot.py lines 477-479. -/
def most_negative (df : List Row) : Option Row :=
  nlargest1 (df.filter fun r => decide (r.sentiment = "NEGATIVE"))

/-- Percentage rendering of the result message, telegram_bot.py lines
456-458. Python evaluates count / total_articles * 100 for each of the three
counts; the none branch records the ZeroDivisionError raised when
total_articles is zero. -/
def breakdown_percentages (o : OverallSentiment) : Option (ℚ × ℚ × ℚ) :=
  if o.total_articles = 0 then none
  else some ((o.positive_count : ℚ) / (o.total_articles : ℚ) * 100,
             (o.negative_count : ℚ) / (o.total_articles : ℚ) * 100,
             (o.neutral_count : ℚ) / (o.total_articles : ℚ) * 100)

end FinancialSentimentBot

/-- Number of results carrying a given label; spec side counting used to state
the aggregation claims. -/
def countLabel (lab : String) (rs : List ScoredLabel) : ℕ :=
  (rs.filter fun r => decide (r.label = lab)).length

/-- Number of DataFrame rows carrying a given sentiment. -/
def countRows (lab : String) (df : List FinancialSentimentBot.Row) : ℕ :=
  (df.filter fun r => decide (r.sentiment = lab)).length

/-- The row r occurs in l at a position such that r carries the maximal
confidence of l and every strictly earlier row carries a strictly smaller
confidence: r is the first of the tied maxima of l. -/
def isFirstMaxOf (r : FinancialSentimentBot.Row)
    (l : List FinancialSentimentBot.Row) : Prop :=
  ∃ i, l.get? i = some r ∧ (∀ x ∈ l, x.confidence ≤ r.confidence) ∧
    ∀ j, j < i → ∀ x, l.get? j = some x → x.confidence < r.confidence

/-- Helper: the element selected by pyMax is one of the candidates. -/
theorem pyMax_mem (h : ScoredLabel) (t : List ScoredLabel) : pyMax h t ∈ h :: t := by
  induction t generalizing h with
  | nil => simp [pyMax]
  | cons x xs ih =>
    show pyMax (if x.score > h.score then x else h) xs ∈ h :: x :: xs
    rcases List.mem_cons.mp (ih (if x.score > h.score then x else h)) with h1 | h1
    · rw [h1]
      by_cases hc : x.score > h.score
      · simp [hc]
      · simp [hc]
    · simp [h1]

/-- Helper: the element selected by pyMax carries the maximal score. -/
theorem pyMax_is_max (h : ScoredLabel) (t : List ScoredLabel) :
    ∀ x ∈ h :: t, x.score ≤ (pyMax h t).score := by
  induction t generalizing h with
  | nil =>
    intro x hx
    rw [List.mem_singleton] at hx
    subst hx
    simp [pyMax]
  | cons y ys ih =>
    intro x hx
    show x.score ≤ (pyMax (if y.score > h.score then y else h) ys).score
    have hh : h.score ≤ (if y.score > h.score then y else h).score := by
      by_cases hc : y.score > h.score
      · simp [hc]; exact le_of_lt hc
      · simp [hc]
    have hy : y.score ≤ (if y.score > h.score then y else h).score := by
      by_cases hc : y.score > h.score
      · simp [hc]
      · simp [hc]; exact le_of_not_lt hc
    have hacc := ih (if y.score > h.score then y else h)
    have hself := hacc _ (List.mem_cons_self _ _)
    rcases List.mem_cons.mp hx with h1 | h1
    · rw [h1]; exact le_trans hh hself
    · rcases List.mem_cons.mp h1 with h2 | h2
      · rw [h2]; exact le_trans hy hself
      · exact hacc x (List.mem_cons.mpr (Or.inr h2))

/-- Helper: nlargest over a non-empty frame always selects a row. -/
theorem nlargest1_cons_ne_none (x : FinancialSentimentBot.Row)
    (xs : List FinancialSentimentBot.Row) :
    FinancialSentimentBot.nlargest1 (x :: xs) ≠ none := by
  cases hx : FinancialSentimentBot.nlargest1 xs with
  | none => simp [FinancialSentimentBot.nlargest1, hx]
  | some y =>
    simp only [FinancialSentimentBot.nlargest1, hx]
    split <;> simp

/-- Helper: nlargest selects no row exactly over the empty frame. -/
theorem nlargest1_eq_none_iff (l : List FinancialSentimentBot.Row) :
    FinancialSentimentBot.nlargest1 l = none ↔ l = [] := by
  cases l with
  | nil => simp [FinancialSentimentBot.nlargest1]
  | cons x xs => simp [nlargest1_cons_ne_none x xs]

/-- Helper: the row selected by nlargest is the first of the tied maxima. -/
theorem nlargest1_isFirstMax (l : List FinancialSentimentBot.Row)
    (r : FinancialSentimentBot.Row)
    (h : FinancialSentimentBot.nlargest1 l = some r) : isFirstMaxOf r l := by
  induction l generalizing r with
  | nil => simp [FinancialSentimentBot.nlargest1] at h
  | cons x xs ih =>
    rw [show FinancialSentimentBot.nlargest1 (x :: xs) =
        (match FinancialSentimentBot.nlargest1 xs with
         | none => some x
         | some y => if y.confidence > x.confidence then some y else some x) from rfl] at h
    cases hx : FinancialSentimentBot.nlargest1 xs with
    | none =>
      rw [hx] at h
      have h' : some x = some r := h
      simp only [Option.some.injEq] at h'
      subst h'
      have hxs : xs = [] := (nlargest1_eq_none_iff xs).mp hx
      subst hxs
      exact ⟨0, rfl, by simp, fun j hj => absurd hj (Nat.not_lt_zero j)⟩
    | some y =>
      rw [hx] at h
      have h' : (if y.confidence > x.confidence then some y else some x) = some r := h
      by_cases hc : y.confidence > x.confidence
      · rw [if_pos hc] at h'
        simp only [Option.some.injEq] at h'
        subst h'
        obtain ⟨i, hi, hmax, hbefore⟩ := ih y hx
        refine ⟨i + 1, hi, ?_, ?_⟩
        · intro z hz
          rcases List.mem_cons.mp hz with h1 | h1
          · rw [h1]; exact le_of_lt hc
          · exact hmax z h1
        · intro j hj z hz
          cases j with
          | zero =>
            rw [List.get?_cons_zero] at hz
            simp only [Option.some.injEq] at hz
            subst hz
            exact hc
          | succ k =>
            exact hbefore k (Nat.lt_of_succ_lt_succ hj) z hz
      · rw [if_neg hc] at h'
        simp only [Option.some.injEq] at h'
        subst h'
        obtain ⟨i, hi, hmax, hbefore⟩ := ih y hx
        refine ⟨0, rfl, ?_, fun j hj => absurd hj (Nat.not_lt_zero j)⟩
        intro z hz
        rcases List.mem_cons.mp hz with h1 | h1
        · rw [h1]
        · exact le_trans (hmax z h1) (le_of_not_lt hc)

/-- Helper: over canonical labels the three filters partition the list. -/
theorem filter_three_partition (rs : List ScoredLabel)
    (h : ∀ r ∈ rs, r.label = "POSITIVE" ∨ r.label = "NEGATIVE" ∨ r.label = "NEUTRAL") :
    countLabel "POSITIVE" rs + countLabel "NEGATIVE" rs + countLabel "NEUTRAL" rs
      = rs.length := by
  induction rs with
  | nil => simp [countLabel]
  | cons r tl ih =>
    have hr := h r (List.mem_cons_self r tl)
    have ihtl := ih fun x hx => h x (List.mem_cons_of_mem r hx)
    simp only [countLabel] at ihtl ⊢
    rcases hr with h1 | h1 | h1 <;> simp [List.filter_cons, h1] <;> omega

/-- Helper: a sum of rationals each at least zero is at least zero. -/
theorem sum_nonneg_list (l : List ℚ) (h : ∀ x ∈ l, 0 ≤ x) : 0 ≤ l.sum :=
  List.sum_nonneg h

/-- Helper: a sum of rationals each at most one is at most the length. -/
theorem sum_le_length (l : List ℚ) (h : ∀ x ∈ l, x ≤ 1) :
    l.sum ≤ (l.length : ℚ) := by
  induction l with
  | nil => simp
  | cons x xs ih =>
    have hx := h x (List.mem_cons_self x xs)
    have hxs := ih fun y hy => h y (List.mem_cons_of_mem x hy)
    simp only [List.sum_cons, List.length_cons]
    push_cast
    linarith

/-- Helper: the value selected by argmaxCount is one of the candidates. -/
theorem argmaxCount_mem (rows : List String) (v : String) (vs : List String) :
    argmaxCount rows v vs ∈ v :: vs := by
  induction vs generalizing v with
  | nil => simp [argmaxCount]
  | cons x xs ih =>
    show argmaxCount rows (if countVal rows x > countVal rows v then x else v) xs
        ∈ v :: x :: xs
    rcases List.mem_cons.mp
        (ih (if countVal rows x > countVal rows v then x else v)) with h1 | h1
    · rw [h1]
      by_cases hc : countVal rows x > countVal rows v
      · simp [hc]
      · simp [hc]
    · simp [h1]

/-- Helper: the value selected by argmaxCount attains the maximal count. -/
theorem argmaxCount_is_max (rows : List String) (v : String) (vs : List String) :
    ∀ w ∈ v :: vs, countVal rows w ≤ countVal rows (argmaxCount rows v vs) := by
  induction vs generalizing v with
  | nil =>
    intro w hw
    rw [List.mem_singleton] at hw
    subst hw
    simp [argmaxCount]
  | cons x xs ih =>
    intro w hw
    show countVal rows w
        ≤ countVal rows (argmaxCount rows (if countVal rows x > countVal rows v then x else v) xs)
    have hv : countVal rows v
        ≤ countVal rows (if countVal rows x > countVal rows v then x else v) := by
      by_cases hc : countVal rows x > countVal rows v
      · simp only [if_pos hc]; omega
      · simp only [if_neg hc]
        exact le_refl _
    have hx : countVal rows x
        ≤ countVal rows (if countVal rows x > countVal rows v then x else v) := by
      by_cases hc : countVal rows x > countVal rows v
      · simp only [if_pos hc]
        exact le_refl _
      · simp only [if_neg hc]; omega
    have hacc := ih (if countVal rows x > countVal rows v then x else v)
    have hself := hacc _ (List.mem_cons_self _ _)
    rcases List.mem_cons.mp hw with h1 | h1
    · rw [h1]; exact le_trans hv hself
    · rcases List.mem_cons.mp h1 with h2 | h2
      · rw [h2]; exact le_trans hx hself
      · exact hacc w (List.mem_cons.mpr (Or.inr h2))

/-- Helper: a value occurs among the distinct labels exactly when it occurs
in the column. -/
theorem mem_distinctLabels (w : String) (rows : List String) :
    w ∈ distinctLabels rows ↔ w ∈ rows := by
  induction rows with
  | nil => simp [distinctLabels]
  | cons v vs ih =>
    simp only [distinctLabels, List.mem_cons, List.mem_filter, ih,
      decide_eq_true_eq]
    by_cases hw : w = v
    · simp [hw]
    · simp [hw]

/-- Helper: the distinct labels are empty exactly over the empty column. -/
theorem distinctLabels_eq_nil_iff (rows : List String) :
    distinctLabels rows = [] ↔ rows = [] := by
  cases rows with
  | nil => simp [distinctLabels]
  | cons v vs => simp [distinctLabels]

/-- Helper: for a non-empty input the dominant label of the aggregate is
computed solely from the POSITIVE versus NEGATIVE counts. -/
theorem overall_sentiment_eq (rs : List ScoredLabel) (h : rs ≠ []) :
    (FinancialSentimentBot.calculate_overall_sentiment rs).overall_sentiment =
      if countLabel "NEGATIVE" rs < countLabel "POSITIVE" rs then "POSITIVE"
      else if countLabel "POSITIVE" rs < countLabel "NEGATIVE" rs then "NEGATIVE"
      else "NEUTRAL" := by
  simp only [FinancialSentimentBot.calculate_overall_sentiment, if_neg h, countLabel]

/-- C1: the claim states that the aggregated dominant label is the label with
the strictly greatest count and that any tie for the greatest count resolves
to NEUTRAL. Counterexample: with one POSITIVE and five NEUTRAL results the
strictly greatest count belongs to NEUTRAL, yet the code reports POSITIVE,
because it compares only the POSITIVE and NEGATIVE counts. -/
theorem c1_counterexample :
    countLabel "NEUTRAL" [⟨"POSITIVE", 1/2⟩, ⟨"NEUTRAL", 1/2⟩, ⟨"NEUTRAL", 1/2⟩,
        ⟨"NEUTRAL", 1/2⟩, ⟨"NEUTRAL", 1/2⟩, ⟨"NEUTRAL", 1/2⟩] = 5 ∧
    countLabel "POSITIVE" [⟨"POSITIVE", 1/2⟩, ⟨"NEUTRAL", 1/2⟩, ⟨"NEUTRAL", 1/2⟩,
        ⟨"NEUTRAL", 1/2⟩, ⟨"NEUTRAL", 1/2⟩, ⟨"NEUTRAL", 1/2⟩] = 1 ∧
    countLabel "NEGATIVE" [⟨"POSITIVE", 1/2⟩, ⟨"NEUTRAL", 1/2⟩, ⟨"NEUTRAL", 1/2⟩,
        ⟨"NEUTRAL", 1/2⟩, ⟨"NEUTRAL", 1/2⟩, ⟨"NEUTRAL", 1/2⟩] = 0 ∧
    (FinancialSentimentBot.calculate_overall_sentiment
        [⟨"POSITIVE", 1/2⟩, ⟨"NEUTRAL", 1/2⟩, ⟨"NEUTRAL", 1/2⟩,
         ⟨"NEUTRAL", 1/2⟩, ⟨"NEUTRAL", 1/2⟩, ⟨"NEUTRAL", 1/2⟩]).overall_sentiment
      = "POSITIVE" := by
  refine ⟨by decide, by decide, by decide, by decide⟩

/-- C1 amended: in the bot the dominant label depends only on the POSITIVE
and NEGATIVE counts: POSITIVE when strictly more results are POSITIVE than
NEGATIVE, NEGATIVE in the opposite strict case, and NEUTRAL exactly when
those two counts tie, regardless of the NEUTRAL count. In the dashboard the
dominant sentiment is a label attaining the greatest count, so a label with
the strictly greatest count wins as the original claim states, but a tie for
the greatest count resolves to one of the tied labels via the value_counts
ordering rather than to NEUTRAL: at three POSITIVE against three NEGATIVE
the dashboard result is not Neutral. -/
theorem c1_dominant_label_amended (rs : List ScoredLabel) :
    ((FinancialSentimentBot.calculate_overall_sentiment rs).overall_sentiment = "POSITIVE"
       ↔ countLabel "NEGATIVE" rs < countLabel "POSITIVE" rs) ∧
    ((FinancialSentimentBot.calculate_overall_sentiment rs).overall_sentiment = "NEGATIVE"
       ↔ countLabel "POSITIVE" rs < countLabel "NEGATIVE" rs) ∧
    ((FinancialSentimentBot.calculate_overall_sentiment rs).overall_sentiment = "NEUTRAL"
       ↔ countLabel "POSITIVE" rs = countLabel "NEGATIVE" rs) ∧
    (∀ lab ∈ dashboard_labels rs,
      countVal (dashboard_labels rs) lab
        ≤ countVal (dashboard_labels rs) (dashboard_dominant rs)) ∧
    (∀ lab, lab ∈ dashboard_labels rs →
      (∀ other ∈ dashboard_labels rs, other ≠ lab →
        countVal (dashboard_labels rs) other < countVal (dashboard_labels rs) lab) →
      dashboard_dominant rs = lab) ∧
    dashboard_dominant
        [⟨"POSITIVE", (1:ℚ)/2⟩, ⟨"POSITIVE", (1:ℚ)/2⟩, ⟨"POSITIVE", (1:ℚ)/2⟩,
         ⟨"NEGATIVE", (1:ℚ)/2⟩, ⟨"NEGATIVE", (1:ℚ)/2⟩, ⟨"NEGATIVE", (1:ℚ)/2⟩]
      ≠ "Neutral" := by
  have hbot :
      ((FinancialSentimentBot.calculate_overall_sentiment rs).overall_sentiment = "POSITIVE"
        ↔ countLabel "NEGATIVE" rs < countLabel "POSITIVE" rs) ∧
      ((FinancialSentimentBot.calculate_overall_sentiment rs).overall_sentiment = "NEGATIVE"
        ↔ countLabel "POSITIVE" rs < countLabel "NEGATIVE" rs) ∧
      ((FinancialSentimentBot.calculate_overall_sentiment rs).overall_sentiment = "NEUTRAL"
        ↔ countLabel "POSITIVE" rs = countLabel "NEGATIVE" rs) := by
    by_cases hrs : rs = []
    · subst hrs; decide
    · rcases Nat.lt_trichotomy (countLabel "POSITIVE" rs) (countLabel "NEGATIVE" rs)
        with h | h | h
      · rw [overall_sentiment_eq rs hrs, if_neg (by omega), if_pos h]
        exact ⟨⟨fun hh => absurd hh (by decide), fun hh => absurd hh (by omega)⟩,
               ⟨fun _ => h, fun _ => rfl⟩,
               ⟨fun hh => absurd hh (by decide), fun hh => absurd hh (by omega)⟩⟩
      · rw [overall_sentiment_eq rs hrs, if_neg (by omega), if_neg (by omega)]
        exact ⟨⟨fun hh => absurd hh (by decide), fun hh => absurd hh (by omega)⟩,
               ⟨fun hh => absurd hh (by decide), fun hh => absurd hh (by omega)⟩,
               ⟨fun _ => h, fun _ => rfl⟩⟩
      · rw [overall_sentiment_eq rs hrs, if_pos h]
        exact ⟨⟨fun _ => h, fun _ => rfl⟩,
               ⟨fun hh => absurd hh (by decide), fun hh => absurd hh (by omega)⟩,
               ⟨fun hh => absurd hh (by decide), fun hh => absurd hh (by omega)⟩⟩
  have hmaxall : ∀ lab ∈ dashboard_labels rs,
      countVal (dashboard_labels rs) lab
        ≤ countVal (dashboard_labels rs) (dashboard_dominant rs) := by
    intro lab hlab
    cases hd : distinctLabels (dashboard_labels rs) with
    | nil =>
      exfalso
      rw [(distinctLabels_eq_nil_iff _).mp hd] at hlab
      exact List.not_mem_nil lab hlab
    | cons v vs =>
      have hdom : dashboard_dominant rs = argmaxCount (dashboard_labels rs) v vs := by
        simp only [dashboard_dominant, dominant_sentiment, hd]
      rw [hdom]
      exact argmaxCount_is_max _ v vs lab (by rw [← hd, mem_distinctLabels]; exact hlab)
  have hdommem : dashboard_labels rs ≠ [] →
      dashboard_dominant rs ∈ dashboard_labels rs := by
    intro hrows
    cases hd : distinctLabels (dashboard_labels rs) with
    | nil => exact absurd ((distinctLabels_eq_nil_iff _).mp hd) hrows
    | cons v vs =>
      have hdom : dashboard_dominant rs = argmaxCount (dashboard_labels rs) v vs := by
        simp only [dashboard_dominant, dominant_sentiment, hd]
      rw [hdom, ← mem_distinctLabels, hd]
      exact argmaxCount_mem _ v vs
  refine ⟨hbot.1, hbot.2.1, hbot.2.2, hmaxall, ?_, by decide⟩
  intro lab hlab hstrict
  by_contra hne
  have hd1 := hdommem fun h0 => by
    rw [h0] at hlab
    exact List.not_mem_nil lab hlab
  have h1 := hstrict (dashboard_dominant rs) hd1 hne
  have h2 := hmaxall lab hlab
  omega

/-- Witness for C1 amended: the spec tie instance of three POSITIVE against
three NEGATIVE yields NEUTRAL in the bot, and with one POSITIVE against five
NEUTRAL the dashboard dominant sentiment is Neutral, the label with the
strictly greatest count. -/
theorem c1_witness :
    (FinancialSentimentBot.calculate_overall_sentiment
        [⟨"POSITIVE", (1:ℚ)/2⟩, ⟨"POSITIVE", (1:ℚ)/2⟩, ⟨"POSITIVE", (1:ℚ)/2⟩,
         ⟨"NEGATIVE", (1:ℚ)/2⟩, ⟨"NEGATIVE", (1:ℚ)/2⟩,
         ⟨"NEGATIVE", (1:ℚ)/2⟩]).overall_sentiment = "NEUTRAL" ∧
    dashboard_dominant
        [⟨"POSITIVE", (1:ℚ)/2⟩, ⟨"NEUTRAL", (1:ℚ)/2⟩, ⟨"NEUTRAL", (1:ℚ)/2⟩,
         ⟨"NEUTRAL", (1:ℚ)/2⟩, ⟨"NEUTRAL", (1:ℚ)/2⟩, ⟨"NEUTRAL", (1:ℚ)/2⟩]
      = "Neutral" :=
  ⟨((c1_dominant_label_amended
      [⟨"POSITIVE", (1:ℚ)/2⟩, ⟨"POSITIVE", (1:ℚ)/2⟩, ⟨"POSITIVE", (1:ℚ)/2⟩,
       ⟨"NEGATIVE", (1:ℚ)/2⟩, ⟨"NEGATIVE", (1:ℚ)/2⟩,
       ⟨"NEGATIVE", (1:ℚ)/2⟩]).2.2.1).mpr (by decide),
   (c1_dominant_label_amended
      [⟨"POSITIVE", (1:ℚ)/2⟩, ⟨"NEUTRAL", (1:ℚ)/2⟩, ⟨"NEUTRAL", (1:ℚ)/2⟩,
       ⟨"NEUTRAL", (1:ℚ)/2⟩, ⟨"NEUTRAL", (1:ℚ)/2⟩,
       ⟨"NEUTRAL", (1:ℚ)/2⟩]).2.2.2.2.1 "Neutral" (by decide) (by decide)⟩

/-- C2: the claim states that a model label outside the closed set LABEL_0,
LABEL_1, LABEL_2, NEGATIVE, NEUTRAL, POSITIVE is surfaced as a fatal
ClassificationError and never coerced or passed through. The code instead
passes the unrecognized upper-cased label straight through into the result in
both front ends: here the unknown tag LABEL_3 with score 9/10 flows unchanged
into the output of both analyze_sentiment functions, and no error path exists
in either function. -/
theorem c2_unrecognized_label_passthrough :
    analyze_sentiment (fun _ => [RawResult.single ⟨"LABEL_3", 9/10⟩])
        ["Markets drift sideways"] = [⟨"LABEL_3", 9/10⟩] ∧
    FinancialSentimentBot.analyze_sentiment
        (some fun _ => [RawResult.single ⟨"LABEL_3", 9/10⟩])
        ["Markets drift sideways"] = [⟨"LABEL_3", 9/10⟩] :=
  ⟨rfl, rfl⟩

/-- C9: aggregate applied to the empty sequence returns dominant label
NEUTRAL, confidence zero, all counts zero, total zero, and no top positive or
top negative exemplar, and both classifier adapters return the empty list on
empty input without invoking the model (the result does not depend on the
pipeline argument at all). -/
theorem c9_empty_aggregate :
    FinancialSentimentBot.calculate_overall_sentiment [] =
      { overall_sentiment := "NEUTRAL", confidence := 0, positive_count := 0,
        negative_count := 0, neutral_count := 0, total_articles := 0 } ∧
    FinancialSentimentBot.most_positive (FinancialSentimentBot.build_df [] []) = none ∧
    FinancialSentimentBot.most_negative (FinancialSentimentBot.build_df [] []) = none ∧
    (∀ pipe : List String → List RawResult, analyze_sentiment pipe [] = []) ∧
    (∀ p : Option (List String → List RawResult),
        FinancialSentimentBot.analyze_sentiment p [] = []) := by
  refine ⟨rfl, rfl, rfl, fun pipe => rfl, fun p => ?_⟩
  cases p <;> rfl

/-- Helper: explicit field values of the aggregate record over a non-empty
input list. -/
theorem calculate_eq_of_ne_nil (rs : List ScoredLabel) (h : rs ≠ []) :
    FinancialSentimentBot.calculate_overall_sentiment rs =
      { overall_sentiment :=
          if countLabel "NEGATIVE" rs < countLabel "POSITIVE" rs then "POSITIVE"
          else if countLabel "POSITIVE" rs < countLabel "NEGATIVE" rs then "NEGATIVE"
          else "NEUTRAL",
        confidence := (rs.map fun r => r.score).sum / (rs.length : ℚ),
        positive_count := countLabel "POSITIVE" rs,
        negative_count := countLabel "NEGATIVE" rs,
        neutral_count := countLabel "NEUTRAL" rs,
        total_articles := rs.length } := by
  simp only [FinancialSentimentBot.calculate_overall_sentiment, if_neg h, countLabel,
    gt_iff_lt]

/-- C4: for every sequence of classified articles, with labels in the
canonical set and confidences in the unit interval as the data model
requires, the three counts sum to the total, the total equals the input
length, the average confidence lies in the unit interval, it is zero when the
total is zero, and otherwise it is the arithmetic mean of every confidence
regardless of label. -/
theorem c4_aggregate_invariants (rs : List ScoredLabel)
    (hlab : ∀ r ∈ rs, r.label = "POSITIVE" ∨ r.label = "NEGATIVE" ∨ r.label = "NEUTRAL")
    (hconf : ∀ r ∈ rs, 0 ≤ r.score ∧ r.score ≤ 1) :
    (FinancialSentimentBot.calculate_overall_sentiment rs).positive_count
        + (FinancialSentimentBot.calculate_overall_sentiment rs).negative_count
        + (FinancialSentimentBot.calculate_overall_sentiment rs).neutral_count
      = (FinancialSentimentBot.calculate_overall_sentiment rs).total_articles ∧
    (FinancialSentimentBot.calculate_overall_sentiment rs).total_articles = rs.length ∧
    0 ≤ (FinancialSentimentBot.calculate_overall_sentiment rs).confidence ∧
    (FinancialSentimentBot.calculate_overall_sentiment rs).confidence ≤ 1 ∧
    (rs = [] → (FinancialSentimentBot.calculate_overall_sentiment rs).confidence = 0) ∧
    (rs ≠ [] → (FinancialSentimentBot.calculate_overall_sentiment rs).confidence
        = (rs.map fun r => r.score).sum / (rs.length : ℚ)) := by
  by_cases hrs : rs = []
  · subst hrs
    refine ⟨rfl, rfl, le_of_eq rfl, ?_, fun _ => rfl, fun hne => absurd rfl hne⟩
    show (0 : ℚ) ≤ 1
    norm_num
  · have hlen : 0 < rs.length := List.length_pos.mpr hrs
    have hlenq : (0 : ℚ) < (rs.length : ℚ) := by exact_mod_cast hlen
    have hsum0 : 0 ≤ (rs.map fun r => r.score).sum := by
      apply sum_nonneg_list
      intro x hx
      obtain ⟨r, hr, rfl⟩ := List.mem_map.mp hx
      exact (hconf r hr).1
    have hsum1 : (rs.map fun r => r.score).sum ≤ (rs.length : ℚ) := by
      have := sum_le_length (rs.map fun r => r.score) ?_
      · rwa [List.length_map] at this
      · intro x hx
        obtain ⟨r, hr, rfl⟩ := List.mem_map.mp hx
        exact (hconf r hr).2
    rw [calculate_eq_of_ne_nil rs hrs]
    refine ⟨filter_three_partition rs hlab, rfl, ?_, ?_, fun he => absurd he hrs,
      fun _ => rfl⟩
    · exact div_nonneg hsum0 (le_of_lt hlenq)
    · rw [div_le_one hlenq]
      exact hsum1

/-- Witness for C4 at the end-to-end example of the spec: five results
POSITIVE 9/10, POSITIVE 8/10, NEGATIVE 7/10, NEUTRAL 5/10, NEUTRAL 6/10. -/
theorem c4_witness :
    (FinancialSentimentBot.calculate_overall_sentiment
        [⟨"POSITIVE", (9:ℚ)/10⟩, ⟨"POSITIVE", (8:ℚ)/10⟩, ⟨"NEGATIVE", (7:ℚ)/10⟩,
         ⟨"NEUTRAL", (5:ℚ)/10⟩, ⟨"NEUTRAL", (6:ℚ)/10⟩]).positive_count
        + (FinancialSentimentBot.calculate_overall_sentiment
        [⟨"POSITIVE", (9:ℚ)/10⟩, ⟨"POSITIVE", (8:ℚ)/10⟩, ⟨"NEGATIVE", (7:ℚ)/10⟩,
         ⟨"NEUTRAL", (5:ℚ)/10⟩, ⟨"NEUTRAL", (6:ℚ)/10⟩]).negative_count
        + (FinancialSentimentBot.calculate_overall_sentiment
        [⟨"POSITIVE", (9:ℚ)/10⟩, ⟨"POSITIVE", (8:ℚ)/10⟩, ⟨"NEGATIVE", (7:ℚ)/10⟩,
         ⟨"NEUTRAL", (5:ℚ)/10⟩, ⟨"NEUTRAL", (6:ℚ)/10⟩]).neutral_count
      = (FinancialSentimentBot.calculate_overall_sentiment
        [⟨"POSITIVE", (9:ℚ)/10⟩, ⟨"POSITIVE", (8:ℚ)/10⟩, ⟨"NEGATIVE", (7:ℚ)/10⟩,
         ⟨"NEUTRAL", (5:ℚ)/10⟩, ⟨"NEUTRAL", (6:ℚ)/10⟩]).total_articles ∧
    (FinancialSentimentBot.calculate_overall_sentiment
        [⟨"POSITIVE", (9:ℚ)/10⟩, ⟨"POSITIVE", (8:ℚ)/10⟩, ⟨"NEGATIVE", (7:ℚ)/10⟩,
         ⟨"NEUTRAL", (5:ℚ)/10⟩, ⟨"NEUTRAL", (6:ℚ)/10⟩]).total_articles
      = ([⟨"POSITIVE", (9:ℚ)/10⟩, ⟨"POSITIVE", (8:ℚ)/10⟩, ⟨"NEGATIVE", (7:ℚ)/10⟩,
          ⟨"NEUTRAL", (5:ℚ)/10⟩, ⟨"NEUTRAL", (6:ℚ)/10⟩] : List ScoredLabel).length ∧
    0 ≤ (FinancialSentimentBot.calculate_overall_sentiment
        [⟨"POSITIVE", (9:ℚ)/10⟩, ⟨"POSITIVE", (8:ℚ)/10⟩, ⟨"NEGATIVE", (7:ℚ)/10⟩,
         ⟨"NEUTRAL", (5:ℚ)/10⟩, ⟨"NEUTRAL", (6:ℚ)/10⟩]).confidence ∧
    (FinancialSentimentBot.calculate_overall_sentiment
        [⟨"POSITIVE", (9:ℚ)/10⟩, ⟨"POSITIVE", (8:ℚ)/10⟩, ⟨"NEGATIVE", (7:ℚ)/10⟩,
         ⟨"NEUTRAL", (5:ℚ)/10⟩, ⟨"NEUTRAL", (6:ℚ)/10⟩]).confidence ≤ 1 ∧
    (([⟨"POSITIVE", (9:ℚ)/10⟩, ⟨"POSITIVE", (8:ℚ)/10⟩, ⟨"NEGATIVE", (7:ℚ)/10⟩,
       ⟨"NEUTRAL", (5:ℚ)/10⟩, ⟨"NEUTRAL", (6:ℚ)/10⟩] : List ScoredLabel) = [] →
      (FinancialSentimentBot.calculate_overall_sentiment
        [⟨"POSITIVE", (9:ℚ)/10⟩, ⟨"POSITIVE", (8:ℚ)/10⟩, ⟨"NEGATIVE", (7:ℚ)/10⟩,
         ⟨"NEUTRAL", (5:ℚ)/10⟩, ⟨"NEUTRAL", (6:ℚ)/10⟩]).confidence = 0) ∧
    (([⟨"POSITIVE", (9:ℚ)/10⟩, ⟨"POSITIVE", (8:ℚ)/10⟩, ⟨"NEGATIVE", (7:ℚ)/10⟩,
       ⟨"NEUTRAL", (5:ℚ)/10⟩, ⟨"NEUTRAL", (6:ℚ)/10⟩] : List ScoredLabel) ≠ [] →
      (FinancialSentimentBot.calculate_overall_sentiment
        [⟨"POSITIVE", (9:ℚ)/10⟩, ⟨"POSITIVE", (8:ℚ)/10⟩, ⟨"NEGATIVE", (7:ℚ)/10⟩,
         ⟨"NEUTRAL", (5:ℚ)/10⟩, ⟨"NEUTRAL", (6:ℚ)/10⟩]).confidence
        = (([⟨"POSITIVE", (9:ℚ)/10⟩, ⟨"POSITIVE", (8:ℚ)/10⟩, ⟨"NEGATIVE", (7:ℚ)/10⟩,
             ⟨"NEUTRAL", (5:ℚ)/10⟩, ⟨"NEUTRAL", (6:ℚ)/10⟩] : List ScoredLabel).map
            fun r => r.score).sum
          / ((([⟨"POSITIVE", (9:ℚ)/10⟩, ⟨"POSITIVE", (8:ℚ)/10⟩, ⟨"NEGATIVE", (7:ℚ)/10⟩,
               ⟨"NEUTRAL", (5:ℚ)/10⟩, ⟨"NEUTRAL", (6:ℚ)/10⟩] : List ScoredLabel).length : ℚ))) :=
  c4_aggregate_invariants _ (by decide)
    (by intro r hr; fin_cases hr <;> constructor <;> norm_num)

/-- C8 counterexample: the claim states that percentage fields are reported
as 0 when total is 0 and that rendering never raises a division error, in
particular when articles were fetched but classification produced zero
results. In the bot, classification of a fetched non-empty headline list can
produce zero results (here the model handle is missing), the aggregate then
has total zero, and the percentage rendering divides by zero instead of
reporting 0; the none value records the ZeroDivisionError. -/
theorem c8_counterexample :
    FinancialSentimentBot.analyze_sentiment none ["Results beat estimates"] = [] ∧
    FinancialSentimentBot.breakdown_percentages
        (FinancialSentimentBot.calculate_overall_sentiment []) = none :=
  ⟨rfl, rfl⟩

/-- C8 amended: display percentages are computed as count over total times
100; the bot percentage rendering raises a division error exactly when the
classified result list is empty (total zero), and otherwise reports the
three count-over-total percentages without error. -/
theorem c8_percentages_amended (rs : List ScoredLabel) :
    (FinancialSentimentBot.breakdown_percentages
        (FinancialSentimentBot.calculate_overall_sentiment rs) = none ↔ rs = []) ∧
    (rs ≠ [] → FinancialSentimentBot.breakdown_percentages
        (FinancialSentimentBot.calculate_overall_sentiment rs)
      = some ((countLabel "POSITIVE" rs : ℚ) / (rs.length : ℚ) * 100,
              (countLabel "NEGATIVE" rs : ℚ) / (rs.length : ℚ) * 100,
              (countLabel "NEUTRAL" rs : ℚ) / (rs.length : ℚ) * 100)) := by
  by_cases hrs : rs = []
  · subst hrs
    exact ⟨⟨fun _ => rfl, fun _ => rfl⟩, fun hne => absurd rfl hne⟩
  · have hlen : rs.length ≠ 0 := fun h0 => hrs (List.length_eq_zero.mp h0)
    rw [calculate_eq_of_ne_nil rs hrs]
    constructor
    · constructor
      · intro hnone
        simp only [FinancialSentimentBot.breakdown_percentages, if_neg hlen] at hnone
        exact Option.noConfusion hnone
      · intro he
        exact absurd he hrs
    · intro _
      simp only [FinancialSentimentBot.breakdown_percentages, if_neg hlen]

/-- Witness for C8 amended at a one-element POSITIVE result list. -/
theorem c8_witness :
    FinancialSentimentBot.breakdown_percentages
        (FinancialSentimentBot.calculate_overall_sentiment [⟨"POSITIVE", (1:ℚ)/2⟩])
      = some ((countLabel "POSITIVE" [⟨"POSITIVE", (1:ℚ)/2⟩] : ℚ)
                / (([⟨"POSITIVE", (1:ℚ)/2⟩] : List ScoredLabel).length : ℚ) * 100,
              (countLabel "NEGATIVE" [⟨"POSITIVE", (1:ℚ)/2⟩] : ℚ)
                / (([⟨"POSITIVE", (1:ℚ)/2⟩] : List ScoredLabel).length : ℚ) * 100,
              (countLabel "NEUTRAL" [⟨"POSITIVE", (1:ℚ)/2⟩] : ℚ)
                / (([⟨"POSITIVE", (1:ℚ)/2⟩] : List ScoredLabel).length : ℚ) * 100) :=
  (c8_percentages_amended [⟨"POSITIVE", (1:ℚ)/2⟩]).2 (by decide)

/-- C5 counterexample: the claim states that entries with empty headlines are
filtered out first and the survivors then truncated, so a response holding at
least max_articles non-empty-headline articles yields exactly max_articles
articles. The code truncates first: with a response of one empty-headline
entry followed by two good entries and max_articles two, the response holds
two qualifying articles but only one is returned. -/
theorem c5_counterexample :
    (([⟨"", "", "", 0, "s"⟩, ⟨"a", "", "", 0, "s"⟩, ⟨"b", "", "", 0, "s"⟩]
        : List FinnhubArticle).filter fun a => decide (a.headline ≠ "")).length = 2 ∧
    (fetch_news_finnhub true
        (NewsOutcome.ok [⟨"", "", "", 0, "s"⟩, ⟨"a", "", "", 0, "s"⟩, ⟨"b", "", "", 0, "s"⟩])
        2).length = 1 :=
  ⟨by decide, by decide⟩

/-- C5 amended: the symbol-based fetch truncates the provider response to
max_articles first and filters empty headlines afterwards, so the result
holds at most max_articles articles, every returned title is non-empty, and
the count equals max_articles exactly when already the first max_articles
entries of the response all carry non-empty headlines. -/
theorem c5_truncate_then_filter_amended (news : List FinnhubArticle) (n : ℕ) :
    (fetch_news_finnhub true (NewsOutcome.ok news) n).length ≤ n ∧
    (∀ a ∈ fetch_news_finnhub true (NewsOutcome.ok news) n, a.title ≠ "") ∧
    ((fetch_news_finnhub true (NewsOutcome.ok news) n).length = n ↔
      ((∀ a ∈ news.take n, a.headline ≠ "") ∧ n ≤ news.length)) := by
  have hunfold : fetch_news_finnhub true (NewsOutcome.ok news) n =
      ((news.take n).filter fun a => decide (a.headline ≠ "")).map
        (fun a => { title := a.headline, description := a.summary, url := a.url,
                    publishedAt := a.datetime, source_name := a.source }) := rfl
  refine ⟨?_, ?_, ?_, ?_⟩
  · rw [hunfold, List.length_map]
    calc ((news.take n).filter fun a => decide (a.headline ≠ "")).length
        ≤ (news.take n).length := List.length_filter_le _ _
      _ ≤ n := by rw [List.length_take]; omega
  · intro a ha
    rw [hunfold] at ha
    obtain ⟨b, hb, rfl⟩ := List.mem_map.mp ha
    have hkeep := (List.mem_filter.mp hb).2
    simpa using hkeep
  · intro hlen
    rw [hunfold, List.length_map] at hlen
    have h1 := List.length_filter_le (fun a => decide (a.headline ≠ "")) (news.take n)
    have h2 : (news.take n).length = min n news.length := List.length_take n news
    have hn : n ≤ news.length := by omega
    have heq : ((news.take n).filter fun a => decide (a.headline ≠ "")).length
        = (news.take n).length := by omega
    have hfil : ((news.take n).filter fun a => decide (a.headline ≠ ""))
        = news.take n := (List.filter_sublist _).eq_of_length heq
    refine ⟨?_, hn⟩
    intro a ha
    have ham : a ∈ (news.take n).filter fun a => decide (a.headline ≠ "") := by
      rw [hfil]; exact ha
    have hkeep := (List.mem_filter.mp ham).2
    simpa using hkeep
  · rintro ⟨hall, hn⟩
    rw [hunfold, List.length_map, List.filter_eq_self.mpr ?_, List.length_take]
    · omega
    · intro a ha
      simpa using hall a ha

/-- Witness for C5 amended: a two-entry response with non-empty headlines and
max_articles one returns exactly one article. -/
theorem c5_witness :
    (fetch_news_finnhub true
        (NewsOutcome.ok [⟨"a", "", "", 0, "s"⟩, ⟨"b", "", "", 0, "s"⟩]) 1).length = 1 :=
  (c5_truncate_then_filter_amended [⟨"a", "", "", 0, "s"⟩, ⟨"b", "", "", 0, "s"⟩] 1).2.2.mpr
    ⟨by decide, by decide⟩

/-- C6: top_positive and top_negative are the single POSITIVE and NEGATIVE
rows of highest confidence, ties broken by original fetch order with the
earliest winning, and absent exactly when the count of that label is zero. -/
theorem c6_top_exemplar (articles : List Article) (rs : List ScoredLabel) :
    (FinancialSentimentBot.most_positive (FinancialSentimentBot.build_df articles rs)
        = none
      ↔ countRows "POSITIVE" (FinancialSentimentBot.build_df articles rs) = 0) ∧
    (FinancialSentimentBot.most_negative (FinancialSentimentBot.build_df articles rs)
        = none
      ↔ countRows "NEGATIVE" (FinancialSentimentBot.build_df articles rs) = 0) ∧
    (∀ r, FinancialSentimentBot.most_positive (FinancialSentimentBot.build_df articles rs)
        = some r →
      isFirstMaxOf r ((FinancialSentimentBot.build_df articles rs).filter
        fun q => decide (q.sentiment = "POSITIVE"))) ∧
    (∀ r, FinancialSentimentBot.most_negative (FinancialSentimentBot.build_df articles rs)
        = some r →
      isFirstMaxOf r ((FinancialSentimentBot.build_df articles rs).filter
        fun q => decide (q.sentiment = "NEGATIVE"))) := by
  refine ⟨?_, ?_, fun r h => nlargest1_isFirstMax _ r h, fun r h => nlargest1_isFirstMax _ r h⟩
  · simp only [FinancialSentimentBot.most_positive, countRows, nlargest1_eq_none_iff,
      List.length_eq_zero]
  · simp only [FinancialSentimentBot.most_negative, countRows, nlargest1_eq_none_iff,
      List.length_eq_zero]

/-- Witness for C6 at the tie example of the spec: three POSITIVE rows with
confidences 6/10, 9/10, 9/10 in fetch order A, B, C select B, the first of
the tied maxima. -/
theorem c6_witness :
    FinancialSentimentBot.most_positive
        (FinancialSentimentBot.build_df
          [⟨"A", "", "", 0, "s"⟩, ⟨"B", "", "", 0, "s"⟩, ⟨"C", "", "", 0, "s"⟩]
          [⟨"POSITIVE", (6:ℚ)/10⟩, ⟨"POSITIVE", (9:ℚ)/10⟩, ⟨"POSITIVE", (9:ℚ)/10⟩])
      = some ⟨"B", "POSITIVE", (9:ℚ)/10⟩ ∧
    isFirstMaxOf ⟨"B", "POSITIVE", (9:ℚ)/10⟩
      ((FinancialSentimentBot.build_df
          [⟨"A", "", "", 0, "s"⟩, ⟨"B", "", "", 0, "s"⟩, ⟨"C", "", "", 0, "s"⟩]
          [⟨"POSITIVE", (6:ℚ)/10⟩, ⟨"POSITIVE", (9:ℚ)/10⟩, ⟨"POSITIVE", (9:ℚ)/10⟩]).filter
        fun q => decide (q.sentiment = "POSITIVE")) := by
  have hB : FinancialSentimentBot.most_positive
      (FinancialSentimentBot.build_df
        [⟨"A", "", "", 0, "s"⟩, ⟨"B", "", "", 0, "s"⟩, ⟨"C", "", "", 0, "s"⟩]
        [⟨"POSITIVE", (6:ℚ)/10⟩, ⟨"POSITIVE", (9:ℚ)/10⟩, ⟨"POSITIVE", (9:ℚ)/10⟩])
      = some ⟨"B", "POSITIVE", (9:ℚ)/10⟩ := by
    norm_num [FinancialSentimentBot.most_positive, FinancialSentimentBot.build_df,
      FinancialSentimentBot.nlargest1]
  exact ⟨hB, (c6_top_exemplar _ _).2.2.1 _ hB⟩

/-- C7: the adapter maps positional tag LABEL_0 to NEGATIVE, LABEL_1 to
NEUTRAL and LABEL_2 to POSITIVE, passes the literal class names through
unchanged case-insensitively, and on a full per-class distribution selects
the class of maximal probability, first of ties, and uses that probability as
the confidence; the two spec examples LABEL_2 with 87/100 and NEGATIVE with
55/100 follow. -/
theorem c7_label_normalization :
    (∀ s : ℚ, processOne (RawResult.single ⟨"LABEL_0", s⟩) = ⟨"NEGATIVE", s⟩
      ∧ processOne (RawResult.single ⟨"LABEL_1", s⟩) = ⟨"NEUTRAL", s⟩
      ∧ processOne (RawResult.single ⟨"LABEL_2", s⟩) = ⟨"POSITIVE", s⟩) ∧
    (∀ (w : String) (s : ℚ),
      (pyUpper w = "NEGATIVE" ∨ pyUpper w = "NEUTRAL" ∨ pyUpper w = "POSITIVE") →
      processOne (RawResult.single ⟨w, s⟩) = ⟨pyUpper w, s⟩) ∧
    (∀ (h : ScoredLabel) (t : List ScoredLabel),
      processOne (RawResult.dist h t) = processOne (RawResult.single (pyMax h t))
      ∧ pyMax h t ∈ h :: t
      ∧ (∀ x ∈ h :: t, x.score ≤ (pyMax h t).score)) ∧
    processOne (RawResult.single ⟨"LABEL_2", (87:ℚ)/100⟩) = ⟨"POSITIVE", (87:ℚ)/100⟩ ∧
    processOne (RawResult.single ⟨"NEGATIVE", (55:ℚ)/100⟩) = ⟨"NEGATIVE", (55:ℚ)/100⟩ := by
  refine ⟨fun s => ⟨rfl, rfl, rfl⟩, ?_,
    fun h t => ⟨rfl, pyMax_mem h t, pyMax_is_max h t⟩, rfl, rfl⟩
  intro w s hw
  rcases hw with hw | hw | hw
  all_goals (simp only [processOne]; rw [hw]; rfl)

/-- Witness for C7 at the lower-case literal class name negative with score
11/20, which passes through as NEGATIVE. -/
theorem c7_witness :
    processOne (RawResult.single ⟨"negative", (11:ℚ)/20⟩) = ⟨pyUpper "negative", (11:ℚ)/20⟩ :=
  c7_label_normalization.2.1 "negative" ((11:ℚ)/20) (Or.inl (by decide))

/-- C3 counterexample: the claim states that a request routed to the symbol
based provider whose symbol resolution fails yields a zero-article result
with the structured reason code SYMBOL_UNRESOLVED and never fetches with a
substitute identifier. In the bot, a failed resolution (here a lookup
response with no candidates at all) makes get_company_symbol return the
company name itself, and the pipeline then fetches with that substitute
identifier and returns a non-empty article list with no reason code. -/
theorem c3_counterexample :
    FinancialSentimentBot.get_company_symbol true (fun _ => LookupOutcome.ok []) "Acme"
      = "Acme" ∧
    FinancialSentimentBot.route_and_fetch true (fun _ => LookupOutcome.ok [])
        (fun s => if s = "Acme"
          then NewsOutcome.ok [⟨"Acme wins contract", "", "", 0, "wire"⟩]
          else NewsOutcome.ok [])
        (fun _ => []) "Acme"
      = [⟨"Acme wins contract", "", "", 0, "wire"⟩] :=
  ⟨rfl, rfl⟩

/-- C3 amended: when symbol resolution fails (no common-stock candidate, a
malformed or empty response, or a provider error), the dashboard fetch_news
returns the empty article list without fetching and without switching
provider, but carries no structured reason code (only a free-text warning is
shown); the bot get_company_symbol instead falls back to the company name
itself as the ticker, so its fetch proceeds with that substitute
identifier. -/
theorem c3_symbol_resolution_amended (lookup : String → LookupOutcome)
    (finnhub_news : String → NewsOutcome) (newsapi_articles : List Article)
    (company : String) (n : ℕ)
    (hfail : ∀ res, lookup company = LookupOutcome.ok res →
      ∀ c ∈ res, c.type ≠ "Common Stock") :
    fetch_news true true lookup finnhub_news newsapi_articles company n "finnhub" = [] ∧
    FinancialSentimentBot.get_company_symbol true lookup company = company := by
  cases hl : lookup company with
  | ok res =>
    have hnone : res.filter (fun r => decide (r.type = "Common Stock")) = [] := by
      rw [List.filter_eq_nil_iff]
      intro c hc
      simp only [decide_eq_true_eq]
      exact hfail res hl c hc
    have hnone2 : res.filter (fun r =>
        decide (r.type = "Common Stock") && !(r.symbol.data.contains '.')) = [] := by
      rw [List.filter_eq_nil_iff]
      intro c hc hand
      rw [Bool.and_eq_true] at hand
      exact hfail res hl c hc (by simpa using hand.1)
    have hsym : get_company_symbol true lookup company = none := by
      simp only [get_company_symbol, hl, hnone, hnone2]
      rfl
    constructor
    · have hstep : fetch_news true true lookup finnhub_news newsapi_articles company n
            "finnhub"
          = (match get_company_symbol true lookup company with
             | some company_symbol =>
                 fetch_news_finnhub true (finnhub_news company_symbol) n
             | none => ([] : List Article)) := rfl
      rw [hstep, hsym]
    · simp only [FinancialSentimentBot.get_company_symbol, hl, hnone, hnone2]
      rfl
  | missing =>
    have hsym : get_company_symbol true lookup company = none := by
      simp only [get_company_symbol, hl]
      rfl
    constructor
    · have hstep : fetch_news true true lookup finnhub_news newsapi_articles company n
            "finnhub"
          = (match get_company_symbol true lookup company with
             | some company_symbol =>
                 fetch_news_finnhub true (finnhub_news company_symbol) n
             | none => ([] : List Article)) := rfl
      rw [hstep, hsym]
    · simp only [FinancialSentimentBot.get_company_symbol, hl]
      rfl
  | failure =>
    have hsym : get_company_symbol true lookup company = none := by
      simp only [get_company_symbol, hl]
      rfl
    constructor
    · have hstep : fetch_news true true lookup finnhub_news newsapi_articles company n
            "finnhub"
          = (match get_company_symbol true lookup company with
             | some company_symbol =>
                 fetch_news_finnhub true (finnhub_news company_symbol) n
             | none => ([] : List Article)) := rfl
      rw [hstep, hsym]
    · simp only [FinancialSentimentBot.get_company_symbol, hl]
      rfl

/-- Witness for C3 amended: a lookup returning a single candidate that is not
a common stock yields an empty dashboard result and the bot falls back to the
company name. -/
theorem c3_witness :
    fetch_news true true (fun _ => LookupOutcome.ok [⟨"ETP", "ABC"⟩])
        (fun _ => NewsOutcome.ok []) [] "Acme" 5 "finnhub" = [] ∧
    FinancialSentimentBot.get_company_symbol true
        (fun _ => LookupOutcome.ok [⟨"ETP", "ABC"⟩]) "Acme" = "Acme" :=
  c3_symbol_resolution_amended _ _ _ _ _ (by
    intro res h c hc
    have h2 : LookupOutcome.ok [(⟨"ETP", "ABC"⟩ : SymbolCandidate)] = LookupOutcome.ok res := h
    injection h2 with h3
    subst h3
    rw [List.mem_singleton] at hc
    subst hc
    decide)

/-- C10: on the same sequence of raw model results the duplicated
normalization functions of the two front ends agree: the dashboard
analyze_sentiment and the bot analyze_sentiment with an initialized model
handle return identical output lists for every pipeline and input. -/
theorem c10_frontend_equivalence
    (pipe : List String → List RawResult) (texts : List String) :
    analyze_sentiment pipe texts
      = FinancialSentimentBot.analyze_sentiment (some pipe) texts := rfl

/-- Witness for C10 at a concrete pipeline and headline list. -/
theorem c10_witness :
    analyze_sentiment (fun _ => [RawResult.single ⟨"LABEL_2", (87:ℚ)/100⟩])
        ["Shares rally"]
      = FinancialSentimentBot.analyze_sentiment
          (some fun _ => [RawResult.single ⟨"LABEL_2", (87:ℚ)/100⟩]) ["Shares rally"] :=
  c10_frontend_equivalence _ _

end StockSenti
